import Mathlib

/-!
Shallow embedding of the five in-memory mock HTTP services of this repository
(user, calendar, outlook, teams, onedrive).  Each Flask handler is modelled as
a pure function from the parsed request body and the current collection state
to a response value and the resulting collection state; a result of `none`
models an unhandled Python exception escaping the handler.  Request bodies are
modelled as `Option` of a structure of `Option` fields: `none` for a missing
JSON body, and `none` in a field for an absent key.  Timestamps produced by
`datetime.utcnow()` are threaded in as an explicit `now : String` parameter.
-/

/-- Result of Python `max(list)` on a list of integers: `none` models the
`ValueError` raised on an empty list. -/
def pyMax : List Nat → Option Nat
  | [] => none
  | x :: xs => some (xs.foldl Nat.max x)

/-- Python `s.replace('Z', '+00:00')`: every occurrence of the character `Z`
is replaced by the six characters `+00:00`. -/
def replaceZ : List Char → List Char
  | [] => []
  | c :: rest =>
    if c = 'Z' then '+' :: '0' :: '0' :: ':' :: '0' :: '0' :: replaceZ rest
    else c :: replaceZ rest

/-- The value of Python `date.today()` / the date component of a `datetime`. -/
structure PyDate where
  year : Nat
  month : Nat
  day : Nat
deriving DecidableEq, Repr

/-- Numeric value of a run of decimal digit characters, modelling Python
`int()` applied to an all-digit substring; `none` on empty or non-digit
input (Python raises `ValueError` there). -/
def digitsVal? (cs : List Char) : Option Nat :=
  if cs ≠ [] ∧ cs.all Char.isDigit then
    some (cs.foldl (fun a c => a * 10 + (c.toNat - 48)) 0)
  else none

/-- Leap-year test of Python's `calendar`/`datetime` modules. -/
def pyIsLeap (y : Nat) : Bool :=
  y % 4 == 0 && (y % 100 != 0 || y % 400 == 0)

/-- Number of days in a month, as validated by the Python `date` constructor. -/
def daysInMonth (y m : Nat) : Nat :=
  if m = 2 then (if pyIsLeap y then 29 else 28)
  else if m = 4 ∨ m = 6 ∨ m = 9 ∨ m = 11 then 30
  else 31

/-- Model of CPython's `_parse_isoformat_date` together with the range checks
of the `date` constructor: exactly `YYYY-MM-DD` with a valid calendar date. -/
def parseIsoDate? (cs : List Char) : Option PyDate :=
  match cs with
  | [y1, y2, y3, y4, s1, m1, m2, s2, d1, d2] =>
    if s1 = '-' ∧ s2 = '-' then
      match digitsVal? [y1, y2, y3, y4], digitsVal? [m1, m2], digitsVal? [d1, d2] with
      | some y, some m, some d =>
        if 1 ≤ y ∧ 1 ≤ m ∧ m ≤ 12 ∧ 1 ≤ d ∧ d ≤ daysInMonth y m then
          some ⟨y, m, d⟩
        else none
      | _, _, _ => none
    else none
  | _ => none

/-- Two leading decimal digits and the remainder of the input, modelling one
component step of CPython's `_parse_hh_mm_ss_ff`. -/
def twoDigits? : List Char → Option (Nat × List Char)
  | c1 :: c2 :: rest => (digitsVal? [c1, c2]).map (fun n => (n, rest))
  | _ => none

/-- Model of CPython's `_parse_hh_mm_ss_ff`: `hh[:mm[:ss[.fff[fff]]]]`,
returning hours, minutes, seconds and microseconds. -/
def parseHMSF? (cs : List Char) : Option (Nat × Nat × Nat × Nat) :=
  match twoDigits? cs with
  | none => none
  | some (h, r1) =>
    match r1 with
    | [] => some (h, 0, 0, 0)
    | ':' :: r2 =>
      match twoDigits? r2 with
      | none => none
      | some (m, r3) =>
        match r3 with
        | [] => some (h, m, 0, 0)
        | ':' :: r4 =>
          match twoDigits? r4 with
          | none => none
          | some (s, r5) =>
            match r5 with
            | [] => some (h, m, s, 0)
            | '.' :: fr =>
              if fr.length = 3 then (digitsVal? fr).map (fun f => (h, m, s, f * 1000))
              else if fr.length = 6 then (digitsVal? fr).map (fun f => (h, m, s, f))
              else none
            | _ => none
        | _ => none
    | _ => none

/-- Split a time string at the first `-` or `+`, modelling the
`tz_pos = (tstr.find('-') + 1 or tstr.find('+') + 1)` computation in CPython's
`_parse_isoformat_time`; the second component is the timezone suffix after the
sign character, when a sign is present. -/
def tzSplit (cs : List Char) : List Char × Option (List Char) :=
  match cs.findIdx? (fun c => c = '-') with
  | some i => (cs.take i, some (cs.drop (i + 1)))
  | none =>
    match cs.findIdx? (fun c => c = '+') with
    | some i => (cs.take i, some (cs.drop (i + 1)))
    | none => (cs, none)

/-- Model of CPython's `_parse_isoformat_time` together with the range checks
of the `time`/`timezone` constructors: returns whether the time part of an
isoformat string is accepted. -/
def parseIsoTime? (cs : List Char) : Bool :=
  if cs.length < 2 then false
  else
    match tzSplit cs with
    | (timestr, tz) =>
      match parseHMSF? timestr with
      | none => false
      | some (h, m, s, _) =>
        if h ≤ 23 ∧ m ≤ 59 ∧ s ≤ 59 then
          match tz with
          | none => true
          | some tzstr =>
            if tzstr.length = 5 ∨ tzstr.length = 8 ∨ tzstr.length = 15 then
              match parseHMSF? tzstr with
              | none => false
              | some (th, tm, ts, tf) =>
                decide (th * 3600000000 + tm * 60000000 + ts * 1000000 + tf < 86400000000)
            else false
        else false

/-- Model of CPython's `datetime.fromisoformat` (Python ≤ 3.10, which is why
the code pre-substitutes the `Z` suffix), projected to the `.date()` of the
result: the first ten characters must be a valid `YYYY-MM-DD`, character ten
is the separator (any character is accepted there), and the remainder, when
nonempty, must be a valid isoformat time string. -/
def fromisoformat_date? (cs : List Char) : Option PyDate :=
  match parseIsoDate? (cs.take 10) with
  | none => none
  | some d =>
    match cs.drop 11 with
    | [] => some d
    | tstr => if parseIsoTime? tstr then some d else none

/-! ## Records and seed data -/

/-- A record of the user service's `USERS` collection. -/
structure User where
  id : Nat
  name : String
  email : String
  role : String
deriving DecidableEq, Repr

/-- Seed data `USERS` of `src/user/app.py`. -/
def USERS : List User :=
  [ ⟨1, "John Doe", "john.doe@company.com", "admin"⟩,
    ⟨2, "Jane Smith", "jane.smith@company.com", "user"⟩,
    ⟨3, "Bob Johnson", "bob.johnson@company.com", "user"⟩,
    ⟨4, "Alice Brown", "alice.brown@company.com", "manager"⟩ ]

/-- A record of the calendar service's `EVENTS` collection.  The Python field
`end` is rendered `end_` because `end` is reserved in Lean. -/
structure Event where
  id : Nat
  title : String
  start : String
  end_ : String
  attendees : List String
deriving DecidableEq, Repr

/-- Seed data `EVENTS` of `src/calendar/app.py`. -/
def EVENTS : List Event :=
  [ ⟨1, "Team Meeting", "2024-08-22T09:00:00Z", "2024-08-22T10:00:00Z",
      ["john.doe@company.com", "jane.smith@company.com"]⟩,
    ⟨2, "Project Review", "2024-08-22T14:00:00Z", "2024-08-22T15:30:00Z",
      ["alice.brown@company.com", "bob.johnson@company.com"]⟩,
    ⟨3, "Client Presentation", "2024-08-23T11:00:00Z", "2024-08-23T12:00:00Z",
      ["john.doe@company.com", "alice.brown@company.com"]⟩ ]

/-- A record of the outlook service's `EMAILS` collection.  The Python fields
`from` and `to` are rendered `from_` and `to_` because both are reserved in
Lean. -/
structure Email where
  id : Nat
  from_ : String
  to_ : String
  subject : String
  body : String
  received : String
  read : Bool
  important : Bool
deriving DecidableEq, Repr

/-- Seed data `EMAILS` of `src/outlook/app.py`. -/
def EMAILS : List Email :=
  [ ⟨1, "client@example.com", "john.doe@company.com", "Project Update Required",
      "Please provide an update on the current project status.",
      "2024-08-21T09:15:00Z", false, true⟩,
    ⟨2, "hr@company.com", "all@company.com", "Team Building Event Next Week",
      "Don't forget about our team building event scheduled for next Friday.",
      "2024-08-21T11:30:00Z", true, false⟩,
    ⟨3, "vendor@supplier.com", "alice.brown@company.com", "Invoice #12345",
      "Please find attached invoice for your recent order.",
      "2024-08-21T14:20:00Z", false, false⟩ ]

/-- A record of the teams service's `TEAMS` collection. -/
structure Team where
  id : Nat
  name : String
  members : List String
  created : String
deriving DecidableEq, Repr

/-- Seed data `TEAMS` of `src/teams/app.py`. -/
def TEAMS : List Team :=
  [ ⟨1, "Development Team",
      ["john.doe@company.com", "jane.smith@company.com", "bob.johnson@company.com"],
      "2024-01-15T10:00:00Z"⟩,
    ⟨2, "Marketing Team",
      ["alice.brown@company.com", "jane.smith@company.com"],
      "2024-02-01T14:30:00Z"⟩ ]

/-- A record of the teams service's `MESSAGES` collection. -/
structure Message where
  id : Nat
  team_id : Nat
  from_ : String
  message : String
  timestamp : String
  type : String
deriving DecidableEq, Repr

/-- Seed data `MESSAGES` of `src/teams/app.py`. -/
def MESSAGES : List Message :=
  [ ⟨1, 1, "john.doe@company.com",
      "Good morning everyone! Ready for today's sprint review?",
      "2024-08-21T08:30:00Z", "text"⟩,
    ⟨2, 1, "jane.smith@company.com",
      "Yes! I've prepared the demo for the new features.",
      "2024-08-21T08:32:00Z", "text"⟩,
    ⟨3, 2, "alice.brown@company.com",
      "The new campaign metrics look promising!",
      "2024-08-21T10:15:00Z", "text"⟩ ]

/-- A record of the teams service's `MEETINGS` collection. -/
structure Meeting where
  id : Nat
  team_id : Nat
  title : String
  start : String
  duration : Nat
  participants : List String
deriving DecidableEq, Repr

/-- Seed data `MEETINGS` of `src/teams/app.py`. -/
def MEETINGS : List Meeting :=
  [ ⟨1, 1, "Daily Standup", "2024-08-22T09:00:00Z", 30,
      ["john.doe@company.com", "jane.smith@company.com"]⟩ ]

/-- A record of the onedrive service's `FILES` collection. -/
structure FileRec where
  id : Nat
  name : String
  size : Nat
  type : String
  modified : String
  owner : String
  shared : Bool
deriving DecidableEq, Repr

/-- Seed data `FILES` of `src/onedrive/app.py`. -/
def FILES : List FileRec :=
  [ ⟨1, "Project Proposal.docx", 2048576, "document", "2024-08-20T10:30:00Z",
      "john.doe@company.com", true⟩,
    ⟨2, "Budget Report.xlsx", 1024000, "spreadsheet", "2024-08-21T14:15:00Z",
      "alice.brown@company.com", false⟩,
    ⟨3, "Presentation.pptx", 5242880, "presentation", "2024-08-21T16:45:00Z",
      "jane.smith@company.com", true⟩ ]

/-- A record of the onedrive service's `FOLDERS` collection. -/
structure Folder where
  id : Nat
  name : String
  file_count : Nat
deriving DecidableEq, Repr

/-- Seed data `FOLDERS` of `src/onedrive/app.py`. -/
def FOLDERS : List Folder :=
  [ ⟨1, "Projects", 15⟩, ⟨2, "Reports", 8⟩, ⟨3, "Templates", 12⟩ ]

/-! ## Response shapes

Each handler's possible JSON responses are modelled by a small inductive; the
constructor determines the HTTP status code, recovered by the `status`
projections below.  An error constructor's `String` argument is the message of
the JSON payload `{error: message}`. -/

/-- Result of a get-by-id handler: the found record (status 200) or a
`{error: message}` payload (status 404). -/
inductive GetResp (α : Type) where
  | ok (record : α)
  | notFound (error : String)
deriving DecidableEq, Repr

/-- HTTP status of a get-by-id response. -/
def GetResp.status : GetResp α → Nat
  | .ok _ => 200
  | .notFound _ => 404

/-- Response of `POST /users`: `{error: message}` (400) or the new user
record (201). -/
inductive UserPostResp where
  | badRequest (error : String)
  | created (user : User)
deriving DecidableEq, Repr

/-- HTTP status of a `POST /users` response. -/
def UserPostResp.status : UserPostResp → Nat
  | .badRequest _ => 400
  | .created _ => 201

/-- Response of `POST /events`: `{error: message}` (400) or the new event
record (201). -/
inductive EventPostResp where
  | badRequest (error : String)
  | created (event : Event)
deriving DecidableEq, Repr

/-- HTTP status of a `POST /events` response. -/
def EventPostResp.status : EventPostResp → Nat
  | .badRequest _ => 400
  | .created _ => 201

/-- The `new_email` object built by `send_email`; its field set differs from
the `EMAILS` records (`sent`/`status` instead of `received`/`read`/
`important`). -/
structure SentEmail where
  id : Nat
  from_ : String
  to_ : String
  subject : String
  body : String
  sent : String
  status : String
deriving DecidableEq, Repr

/-- The 201 payload of `POST /emails/send`:
`{message: 'Email sent successfully', email: new_email}`. -/
structure SendEmailPayload where
  message : String
  email : SentEmail
deriving DecidableEq, Repr

/-- Response of `POST /emails/send`: `{error: message}` (400) or the
`{message, email}` payload (201). -/
inductive EmailPostResp where
  | badRequest (error : String)
  | created (payload : SendEmailPayload)
deriving DecidableEq, Repr

/-- HTTP status of a `POST /emails/send` response. -/
def EmailPostResp.status : EmailPostResp → Nat
  | .badRequest _ => 400
  | .created _ => 201

/-- Response of `POST /teams/<id>/messages`: `{error: message}` with status
400 or 404, or the new message record (201). -/
inductive TeamMsgResp where
  | badRequest (error : String)
  | notFound (error : String)
  | created (msg : Message)
deriving DecidableEq, Repr

/-- HTTP status of a `POST /teams/<id>/messages` response. -/
def TeamMsgResp.status : TeamMsgResp → Nat
  | .badRequest _ => 400
  | .notFound _ => 404
  | .created _ => 201

/-- The `{events, date, count}` payload of `GET /events/today`. -/
structure TodayResp where
  events : List Event
  date : PyDate
  count : Nat
deriving DecidableEq, Repr

/-! ## Request bodies -/

/-- JSON body of `POST /users`; `none` in a field models an absent key. -/
structure UserReq where
  name : Option String
  email : Option String
  role : Option String
deriving DecidableEq, Repr

/-- JSON body of `POST /events`. -/
structure EventReq where
  title : Option String
  start : Option String
  end_ : Option String
  attendees : Option (List String)
deriving DecidableEq, Repr

/-- JSON body of `POST /emails/send`. -/
structure EmailReq where
  from_ : Option String
  to_ : Option String
  subject : Option String
  body : Option String
deriving DecidableEq, Repr

/-- JSON body of `POST /teams/<id>/messages`. -/
structure MsgReq where
  from_ : Option String
  message : Option String
deriving DecidableEq, Repr

/-! ## Handlers

Mutating handlers return `Option (response × new collection)`; `none` models
an unhandled exception (here only the `ValueError` of `max([])`).  The Python
guard `if not data or 'k' not in data` is modelled as `data` being `none` or
the field `k` being `none`: a falsy body (`None` or `{}`) and a body missing
the key produce the same error response, so the two are not distinguished. -/

/-- Handler `get_users` of `src/user/app.py`: `{users, count}`. -/
def get_users (users : List User) : List User × Nat :=
  (users, users.length)

/-- Handler `get_user` of `src/user/app.py`: first record with the given id,
else 404 `{error: 'User not found'}`. -/
def get_user (users : List User) (user_id : Nat) : GetResp User :=
  match users.find? (fun u => u.id == user_id) with
  | some u => .ok u
  | none => .notFound "User not found"

/-- Handler `create_user` of `src/user/app.py`: requires `name`, assigns
`id = max(ids) + 1`, defaults `email` to `''` and `role` to `'user'`, appends
and returns the new record with 201. -/
def create_user (data : Option UserReq) (users : List User) :
    Option (UserPostResp × List User) :=
  match data with
  | none => some (.badRequest "Name is required", users)
  | some d =>
    match d.name with
    | none => some (.badRequest "Name is required", users)
    | some name =>
      match pyMax (users.map User.id) with
      | none => none
      | some m =>
        some (.created ⟨m + 1, name, d.email.getD "", d.role.getD "user"⟩,
              users ++ [⟨m + 1, name, d.email.getD "", d.role.getD "user"⟩])

/-- Handler `get_events` of `src/calendar/app.py`: `{events, count}`. -/
def get_events (events : List Event) : List Event × Nat :=
  (events, events.length)

/-- Handler `get_event` of `src/calendar/app.py`. -/
def get_event (events : List Event) (event_id : Nat) : GetResp Event :=
  match events.find? (fun e => e.id == event_id) with
  | some e => .ok e
  | none => .notFound "Event not found"

/-- The per-event date computation of `get_today_events`:
`datetime.fromisoformat(event['start'].replace('Z', '+00:00')).date()`,
with `none` for a raised `ValueError`. -/
def eventStartDate? (start : String) : Option PyDate :=
  fromisoformat_date? (replaceZ start.toList)

/-- The accumulation loop of `get_today_events`: collect, in order, the events
whose start date equals `today`; `none` models the parse exception escaping
the loop. -/
def todayLoop (today : PyDate) : List Event → Option (List Event)
  | [] => some []
  | e :: rest =>
    match eventStartDate? e.start with
    | none => none
    | some d =>
      match todayLoop today rest with
      | none => none
      | some tl => some (if d = today then e :: tl else tl)

/-- Handler `get_today_events` of `src/calendar/app.py`: the value of
`datetime.now().date()` is threaded in as `today`. -/
def get_today_events (today : PyDate) (events : List Event) : Option TodayResp :=
  match todayLoop today events with
  | none => none
  | some tl => some ⟨tl, today, tl.length⟩

/-- Handler `create_event` of `src/calendar/app.py`: requires `title` and
`start` (presence only — the value of `start` is not validated), assigns
`id = max(ids) + 1`, defaults `end` to the value of `start` and `attendees`
to `[]`, appends and returns the new record with 201. -/
def create_event (data : Option EventReq) (events : List Event) :
    Option (EventPostResp × List Event) :=
  match data with
  | none => some (.badRequest "Title and start time are required", events)
  | some d =>
    match d.title, d.start with
    | some title, some start =>
      match pyMax (events.map Event.id) with
      | none => none
      | some m =>
        some (.created ⟨m + 1, title, start, d.end_.getD start, d.attendees.getD []⟩,
              events ++ [⟨m + 1, title, start, d.end_.getD start, d.attendees.getD []⟩])
    | _, _ => some (.badRequest "Title and start time are required", events)

/-- Handler `get_emails` of `src/outlook/app.py`:
`{emails, count, unread_count}`. -/
def get_emails (emails : List Email) : List Email × Nat × Nat :=
  (emails, emails.length, (emails.filter (fun e => !e.read)).length)

/-- Handler `get_email` of `src/outlook/app.py`. -/
def get_email (emails : List Email) (email_id : Nat) : GetResp Email :=
  match emails.find? (fun e => e.id == email_id) with
  | some e => .ok e
  | none => .notFound "Email not found"

/-- Handler `send_email` of `src/outlook/app.py`: requires `to` and
`subject`, builds `new_email` with `id = max(ids) + 1` and
`sent = datetime.utcnow().isoformat() + 'Z'`, and returns it with 201 —
without ever appending it to `EMAILS` (the handler has no
`EMAILS.append(new_email)` statement, so the collection is returned
unchanged). -/
def send_email (data : Option EmailReq) (now : String) (emails : List Email) :
    Option (EmailPostResp × List Email) :=
  match data with
  | none => some (.badRequest "To and subject are required", emails)
  | some d =>
    match d.to_, d.subject with
    | some to_, some subject =>
      match pyMax (emails.map Email.id) with
      | none => none
      | some m =>
        some (.created ⟨"Email sent successfully",
                ⟨m + 1, d.from_.getD "user@company.com", to_, subject,
                 d.body.getD "", now ++ "Z", "sent"⟩⟩,
              emails)
    | _, _ => some (.badRequest "To and subject are required", emails)

/-- Handler `get_teams` of `src/teams/app.py`. -/
def get_teams (teams : List Team) : List Team × Nat :=
  (teams, teams.length)

/-- Handler `get_team` of `src/teams/app.py`. -/
def get_team (teams : List Team) (team_id : Nat) : GetResp Team :=
  match teams.find? (fun t => t.id == team_id) with
  | some t => .ok t
  | none => .notFound "Team not found"

/-- Handler `send_team_message` of `src/teams/app.py`: the missing-`message`
check (400) runs first, then the team-existence check (404), then the new
message is built with `id = max(ids) + 1` and appended. -/
def send_team_message (team_id : Nat) (data : Option MsgReq) (now : String)
    (teams : List Team) (messages : List Message) :
    Option (TeamMsgResp × List Message) :=
  match data with
  | none => some (.badRequest "Message content is required", messages)
  | some d =>
    match d.message with
    | none => some (.badRequest "Message content is required", messages)
    | some msg =>
      match teams.find? (fun t => t.id == team_id) with
      | none => some (.notFound "Team not found", messages)
      | some _ =>
        match pyMax (messages.map Message.id) with
        | none => none
        | some m =>
          some (.created ⟨m + 1, team_id, d.from_.getD "user@company.com", msg,
                  now ++ "Z", "text"⟩,
                messages ++ [⟨m + 1, team_id, d.from_.getD "user@company.com", msg,
                  now ++ "Z", "text"⟩])

/-- Handler `get_files` of `src/onedrive/app.py`. -/
def get_files (files : List FileRec) : List FileRec × Nat :=
  (files, files.length)

/-- Handler `get_file` of `src/onedrive/app.py`. -/
def get_file (files : List FileRec) (file_id : Nat) : GetResp FileRec :=
  match files.find? (fun f => f.id == file_id) with
  | some f => .ok f
  | none => .notFound "File not found"

/-! ## System state and reachability -/

/-- The in-memory state of the whole system: one field per module-level
collection across the five services. -/
structure SysState where
  users : List User
  events : List Event
  emails : List Email
  teams : List Team
  messages : List Message
  meetings : List Meeting
  files : List FileRec
  folders : List Folder
deriving DecidableEq, Repr

/-- The state at process start: every collection holds its seed data. -/
def seedState : SysState :=
  ⟨USERS, EVENTS, EMAILS, TEAMS, MESSAGES, MEETINGS, FILES, FOLDERS⟩

/-- One completed mutating request.  GET handlers never assign to a
collection, so only the four POST handlers appear; each step records the
response and the collection returned by the handler (for rejected requests
that collection is the unchanged one). -/
inductive Step : SysState → SysState → Prop where
  | postUser (σ : SysState) (d : Option UserReq) (r : UserPostResp) (us : List User) :
      create_user d σ.users = some (r, us) → Step σ { σ with users := us }
  | postEvent (σ : SysState) (d : Option EventReq) (r : EventPostResp) (es : List Event) :
      create_event d σ.events = some (r, es) → Step σ { σ with events := es }
  | postEmail (σ : SysState) (d : Option EmailReq) (now : String) (r : EmailPostResp)
      (es : List Email) :
      send_email d now σ.emails = some (r, es) → Step σ { σ with emails := es }
  | postTeamMsg (σ : SysState) (tid : Nat) (d : Option MsgReq) (now : String)
      (r : TeamMsgResp) (ms : List Message) :
      send_team_message tid d now σ.teams σ.messages = some (r, ms) →
      Step σ { σ with messages := ms }

/-- States reachable from the seed data by completed requests. -/
inductive Reachable : SysState → Prop where
  | seed : Reachable seedState
  | step {σ σ' : SysState} : Reachable σ → Step σ σ' → Reachable σ'

/-- Record ids are unique within every collection of the state. -/
def IdsUnique (σ : SysState) : Prop :=
  (σ.users.map User.id).Nodup ∧ (σ.events.map Event.id).Nodup ∧
  (σ.emails.map Email.id).Nodup ∧ (σ.teams.map Team.id).Nodup ∧
  (σ.messages.map Message.id).Nodup ∧ (σ.meetings.map Meeting.id).Nodup ∧
  (σ.files.map FileRec.id).Nodup ∧ (σ.folders.map Folder.id).Nodup

instance (σ : SysState) : Decidable (IdsUnique σ) := by
  unfold IdsUnique; infer_instance

/-- Replacement of only a trailing literal `Z`.  This follows the
specification's wording (normalize a trailing literal `Z` to an explicit zero
offset), to be compared with the code's `replaceZ`, which replaces every
occurrence. -/
def replaceTrailingZ (cs : List Char) : List Char :=
  if cs.getLast? = some 'Z' then cs.dropLast ++ ['+', '0', '0', ':', '0', '0']
  else cs

/-- Start date of an event as the specification words it: parse after
normalizing a trailing `Z` to `+00:00`. -/
def specStartDate? (start : String) : Option PyDate :=
  fromisoformat_date? (replaceTrailingZ start.toList)

/-- The character `Z` occurs in the string exactly once, as its final
character (true of every timestamp the services themselves store). -/
def ZAtEndOnly (s : String) : Prop :=
  s.toList.getLast? = some 'Z' ∧ 'Z' ∉ s.toList.dropLast

instance (s : String) : Decidable (ZAtEndOnly s) := by
  unfold ZAtEndOnly; infer_instance

/-! ## GET handlers as state transactions

The Python GET handlers read a module-level collection and never assign to
it; as transactions on the system state they return their payload and leave
the state exactly as found. -/

/-- `GET /users` as a transaction on the system state. -/
def get_users_tx (σ : SysState) : (List User × Nat) × SysState :=
  (get_users σ.users, σ)

/-- `GET /events` as a transaction on the system state. -/
def get_events_tx (σ : SysState) : (List Event × Nat) × SysState :=
  (get_events σ.events, σ)

/-- `GET /emails` as a transaction on the system state. -/
def get_emails_tx (σ : SysState) : (List Email × Nat × Nat) × SysState :=
  (get_emails σ.emails, σ)

/-- `GET /teams` as a transaction on the system state. -/
def get_teams_tx (σ : SysState) : (List Team × Nat) × SysState :=
  (get_teams σ.teams, σ)

/-- `GET /files` as a transaction on the system state. -/
def get_files_tx (σ : SysState) : (List FileRec × Nat) × SysState :=
  (get_files σ.files, σ)

/-! ## Concrete requests used in counterexamples -/

/-- A valid `POST /emails/send` body: `to` and `subject` present. -/
def c1req : EmailReq := ⟨none, some "john.doe@company.com", some "Hello", none⟩

/-- A concrete `datetime.utcnow().isoformat()` value. -/
def c1now : String := "2024-08-21T15:00:00"

/-- The `new_email` object `send_email` builds for `c1req` at `c1now` over the
seed `EMAILS`. -/
def c1sent : SentEmail :=
  ⟨4, "user@company.com", "john.doe@company.com", "Hello", "",
   "2024-08-21T15:00:00Z", "sent"⟩

/-- A valid `POST /emails/send` body for the repeated-send counterexample. -/
def c4req : EmailReq := ⟨none, some "jane.smith@company.com", some "Ping", none⟩

/-- A concrete `datetime.utcnow().isoformat()` value for the repeated send. -/
def c4now : String := "2024-08-21T16:00:00"

/-- The `new_email` object `send_email` builds for `c4req` at `c4now` over the
seed `EMAILS`. -/
def c4sent : SentEmail :=
  ⟨4, "user@company.com", "jane.smith@company.com", "Ping", "",
   "2024-08-21T16:00:00Z", "sent"⟩

/-- The event record `create_event` appends for a body with the unparseable
start string `not-a-date` over the seed `EVENTS`. -/
def badStartEvent : Event := ⟨4, "Planning", "not-a-date", "not-a-date", []⟩

/-- An Events collection state containing an event with an unparseable
`start` (reachable from the seed by one `POST /events`). -/
def c2BadState : List Event := EVENTS ++ [⟨4, "Broken", "garbage", "garbage", []⟩]

/-! ## Helper lemmas about the Python primitives -/

theorem pyMax_le {l : List Nat} {m : Nat} (h : pyMax l = some m) :
    ∀ a ∈ l, a ≤ m := by
  match l with
  | [] => simp [pyMax] at h
  | x :: xs =>
    simp only [pyMax, Option.some.injEq] at h
    subst h
    intro a ha
    have key : ∀ (ys : List Nat) (b : Nat), b ≤ ys.foldl Nat.max b := by
      intro ys
      induction ys with
      | nil => intro b; exact Nat.le_refl b
      | cons y ys ih =>
        intro b
        exact Nat.le_trans (Nat.le_max_left b y) (ih (Nat.max b y))
    have mem : ∀ (ys : List Nat) (b a : Nat), a ∈ ys → a ≤ ys.foldl Nat.max b := by
      intro ys
      induction ys with
      | nil => intro b a ha; cases ha
      | cons y ys ih =>
        intro b a ha
        simp only [List.foldl]
        cases ha with
        | head => exact Nat.le_trans (Nat.le_max_right _ _) (key ys _)
        | tail _ h => exact ih (Nat.max b y) a h
    cases List.mem_cons.mp ha with
    | inl h => subst h; exact key xs a
    | inr h => exact mem xs x a h

theorem pyMax_append_singleton (l : List Nat) (x : Nat) :
    pyMax (l ++ [x]) = some ((pyMax l).elim x (fun m => Nat.max m x)) := by
  match l with
  | [] => simp [pyMax]
  | y :: ys =>
    simp only [pyMax, List.cons_append, Option.elim]
    have : ∀ (zs : List Nat) (b : Nat), (zs ++ [x]).foldl Nat.max b =
        Nat.max (zs.foldl Nat.max b) x := by
      intro zs
      induction zs with
      | nil => intro b; simp [List.foldl]
      | cons z zs ih => intro b; simp only [List.cons_append, List.foldl]; exact ih (Nat.max b z)
    simp [this]

theorem pyMax_isSome_of_ne_nil {l : List Nat} (h : l ≠ []) :
    ∃ m, pyMax l = some m := by
  match l with
  | [] => exact absurd rfl h
  | x :: xs => exact ⟨xs.foldl Nat.max x, rfl⟩

/-- Appending a fresh id strictly above the current maximum preserves
uniqueness of ids. -/
theorem nodup_append_max {l : List Nat} {m : Nat}
    (hd : l.Nodup) (hm : pyMax l = some m) : (l ++ [m + 1]).Nodup := by
  have hnotmem : (m + 1) ∉ l := by
    intro hmem
    exact absurd (pyMax_le hm _ hmem) (by omega)
  simp [List.nodup_append, hd, hnotmem]

theorem find?_eq_none_of_forall {α : Type} {p : α → Bool} {l : List α}
    (h : ∀ a ∈ l, p a = false) : l.find? p = none := by
  induction l with
  | nil => rfl
  | cons x xs ih =>
    have hx := h x (List.mem_cons_self x xs)
    simp only [List.find?, hx]
    exact ih (fun a ha => h a (List.mem_cons_of_mem x ha))

theorem find?_eq_first {α : Type} (p : α → Bool) (l : List α) (i : Nat)
    (hi : i < l.length) (hp : p (l.get ⟨i, hi⟩) = true)
    (hfirst : ∀ j (hj : j < i), p (l.get ⟨j, Nat.lt_trans hj hi⟩) = false) :
    l.find? p = some (l.get ⟨i, hi⟩) := by
  induction l generalizing i with
  | nil => cases hi
  | cons x xs ih =>
    cases i with
    | zero => simp only [List.get] at hp; simp [List.find?, hp]
    | succ n =>
      have hx : p x = false := hfirst 0 (Nat.succ_pos n)
      simp only [List.find?, hx]
      exact ih n (Nat.lt_of_succ_lt_succ hi) hp
        (fun j hj => hfirst (j + 1) (Nat.succ_lt_succ hj))

/-! ## Shape lemmas for the mutating handlers -/

theorem create_user_cases {d : Option UserReq} {us : List User} {r : UserPostResp}
    {us' : List User} (h : create_user d us = some (r, us')) :
    (us' = us ∧ r = UserPostResp.badRequest "Name is required") ∨
    (∃ m u, pyMax (us.map User.id) = some m ∧ r = UserPostResp.created u ∧
      u.id = m + 1 ∧ us' = us ++ [u]) := by
  cases d with
  | none =>
    simp only [create_user, Option.some.injEq, Prod.mk.injEq] at h
    exact Or.inl ⟨h.2.symm, h.1.symm⟩
  | some dd =>
    cases hn : dd.name with
    | none =>
      simp only [create_user, hn, Option.some.injEq, Prod.mk.injEq] at h
      exact Or.inl ⟨h.2.symm, h.1.symm⟩
    | some name =>
      cases hm : pyMax (us.map User.id) with
      | none => simp [create_user, hn, hm] at h
      | some m =>
        simp only [create_user, hn, hm, Option.some.injEq, Prod.mk.injEq] at h
        exact Or.inr ⟨m, _, rfl, h.1.symm, rfl, h.2.symm⟩

theorem create_event_cases {d : Option EventReq} {es : List Event} {r : EventPostResp}
    {es' : List Event} (h : create_event d es = some (r, es')) :
    (es' = es ∧ r = EventPostResp.badRequest "Title and start time are required") ∨
    (∃ m e, pyMax (es.map Event.id) = some m ∧ r = EventPostResp.created e ∧
      e.id = m + 1 ∧ es' = es ++ [e]) := by
  cases d with
  | none =>
    simp only [create_event, Option.some.injEq, Prod.mk.injEq] at h
    exact Or.inl ⟨h.2.symm, h.1.symm⟩
  | some dd =>
    cases ht : dd.title with
    | none =>
      simp only [create_event, ht, Option.some.injEq, Prod.mk.injEq] at h
      exact Or.inl ⟨h.2.symm, h.1.symm⟩
    | some title =>
      cases hs : dd.start with
      | none =>
        simp only [create_event, ht, hs, Option.some.injEq, Prod.mk.injEq] at h
        exact Or.inl ⟨h.2.symm, h.1.symm⟩
      | some start =>
        cases hm : pyMax (es.map Event.id) with
        | none => simp [create_event, ht, hs, hm] at h
        | some m =>
          simp only [create_event, ht, hs, hm, Option.some.injEq, Prod.mk.injEq] at h
          exact Or.inr ⟨m, _, rfl, h.1.symm, rfl, h.2.symm⟩

theorem send_email_state {d : Option EmailReq} {now : String} {es : List Email}
    {r : EmailPostResp} {es' : List Email}
    (h : send_email d now es = some (r, es')) : es' = es := by
  cases d with
  | none =>
    simp only [send_email, Option.some.injEq, Prod.mk.injEq] at h
    exact h.2.symm
  | some dd =>
    cases ht : dd.to_ with
    | none =>
      simp only [send_email, ht, Option.some.injEq, Prod.mk.injEq] at h
      exact h.2.symm
    | some t =>
      cases hs : dd.subject with
      | none =>
        simp only [send_email, ht, hs, Option.some.injEq, Prod.mk.injEq] at h
        exact h.2.symm
      | some s =>
        cases hm : pyMax (es.map Email.id) with
        | none => simp [send_email, ht, hs, hm] at h
        | some m =>
          simp only [send_email, ht, hs, hm, Option.some.injEq, Prod.mk.injEq] at h
          exact h.2.symm

theorem send_team_message_cases {tid : Nat} {d : Option MsgReq} {now : String}
    {ts : List Team} {ms : List Message} {r : TeamMsgResp} {ms' : List Message}
    (h : send_team_message tid d now ts ms = some (r, ms')) :
    (ms' = ms ∧ r = TeamMsgResp.badRequest "Message content is required") ∨
    (ms' = ms ∧ r = TeamMsgResp.notFound "Team not found") ∨
    (∃ m mg, pyMax (ms.map Message.id) = some m ∧ r = TeamMsgResp.created mg ∧
      mg.id = m + 1 ∧ mg.team_id = tid ∧ ms' = ms ++ [mg]) := by
  cases d with
  | none =>
    simp only [send_team_message, Option.some.injEq, Prod.mk.injEq] at h
    exact Or.inl ⟨h.2.symm, h.1.symm⟩
  | some dd =>
    cases hmsg : dd.message with
    | none =>
      simp only [send_team_message, hmsg, Option.some.injEq, Prod.mk.injEq] at h
      exact Or.inl ⟨h.2.symm, h.1.symm⟩
    | some msg =>
      cases hf : ts.find? (fun t => t.id == tid) with
      | none =>
        simp only [send_team_message, hmsg, hf, Option.some.injEq, Prod.mk.injEq] at h
        exact Or.inr (Or.inl ⟨h.2.symm, h.1.symm⟩)
      | some team =>
        cases hm : pyMax (ms.map Message.id) with
        | none => simp [send_team_message, hmsg, hf, hm] at h
        | some m =>
          simp only [send_team_message, hmsg, hf, hm, Option.some.injEq,
            Prod.mk.injEq] at h
          exact Or.inr (Or.inr ⟨m, _, rfl, h.1.symm, rfl, rfl, h.2.symm⟩)

/-! ## The id-uniqueness invariant -/

theorem reachable_idsUnique {σ : SysState} (h : Reachable σ) : IdsUnique σ := by
  induction h with
  | seed => decide
  | step _ hstep ih =>
    cases hstep with
    | postUser d r us h =>
      rcases create_user_cases h with ⟨rfl, -⟩ | ⟨m, u, hm, -, hid, rfl⟩
      · exact ih
      · refine ⟨?_, ih.2.1, ih.2.2.1, ih.2.2.2.1, ih.2.2.2.2.1, ih.2.2.2.2.2.1,
          ih.2.2.2.2.2.2.1, ih.2.2.2.2.2.2.2⟩
        simpa [hid] using nodup_append_max ih.1 hm
    | postEvent d r es h =>
      rcases create_event_cases h with ⟨rfl, -⟩ | ⟨m, e, hm, -, hid, rfl⟩
      · exact ih
      · refine ⟨ih.1, ?_, ih.2.2.1, ih.2.2.2.1, ih.2.2.2.2.1, ih.2.2.2.2.2.1,
          ih.2.2.2.2.2.2.1, ih.2.2.2.2.2.2.2⟩
        simpa [hid] using nodup_append_max ih.2.1 hm
    | postEmail d now r es h =>
      rcases send_email_state h with rfl
      exact ih
    | postTeamMsg tid d now r ms h =>
      rcases send_team_message_cases h with ⟨rfl, -⟩ | ⟨rfl, -⟩ | ⟨m, mg, hm, -, hid, -, rfl⟩
      · exact ih
      · exact ih
      · refine ⟨ih.1, ih.2.1, ih.2.2.1, ih.2.2.2.1, ?_, ih.2.2.2.2.2.1,
          ih.2.2.2.2.2.2.1, ih.2.2.2.2.2.2.2⟩
        simpa [hid] using nodup_append_max ih.2.2.2.2.1 hm

/-! ## The today-filter computation -/

theorem replaceZ_eq_trailing : ∀ cs : List Char, cs.getLast? = some 'Z' →
    'Z' ∉ cs.dropLast → replaceZ cs = cs.dropLast ++ ['+', '0', '0', ':', '0', '0'] := by
  intro cs
  induction cs with
  | nil => intro h; cases h
  | cons c rest ih =>
    intro h1 h2
    cases rest with
    | nil =>
      simp only [List.getLast?_singleton, Option.some.injEq] at h1
      subst h1
      rfl
    | cons c2 rest2 =>
      have hc : c ≠ 'Z' := by
        intro hc
        exact h2 (by simp [List.dropLast, hc])
      have h1' : (c2 :: rest2).getLast? = some 'Z' := by
        rw [← h1]
        simp [List.getLast?]
      have h2' : 'Z' ∉ (c2 :: rest2).dropLast := by
        intro hmem
        exact h2 (by simp [List.dropLast, hmem])
      have hstep : replaceZ (c :: c2 :: rest2) = c :: replaceZ (c2 :: rest2) := if_neg hc
      rw [hstep, ih h1' h2']
      rfl

/-- On strings whose only `Z` is trailing, the code's replace-all agrees with
the specification's replace-trailing reading. -/
theorem specStartDate_eq_eventStartDate {s : String} (h : ZAtEndOnly s) :
    specStartDate? s = eventStartDate? s := by
  unfold specStartDate? eventStartDate? replaceTrailingZ
  rw [replaceZ_eq_trailing s.toList h.1 h.2, if_pos h.1]

theorem todayLoop_eq_filter (today : PyDate) :
    ∀ events : List Event,
    (∀ e ∈ events, ZAtEndOnly e.start ∧ (eventStartDate? e.start).isSome) →
    todayLoop today events =
      some (events.filter (fun e => decide (specStartDate? e.start = some today))) := by
  intro events
  induction events with
  | nil => intro _; rfl
  | cons e rest ih =>
    intro h
    obtain ⟨hz, hs⟩ := h e (List.mem_cons_self e rest)
    obtain ⟨d, hd⟩ := Option.isSome_iff_exists.mp hs
    have hrest := ih (fun x hx => h x (List.mem_cons_of_mem e hx))
    have hspec : specStartDate? e.start = some d :=
      (specStartDate_eq_eventStartDate hz).trans hd
    simp only [todayLoop, hd, hrest, List.filter_cons, hspec]
    by_cases hdt : d = today
    · subst hdt
      simp
    · simp [hdt]

/-! ## Claim theorems -/

/-- C6: `POST /users` with a body missing the `name` field (a missing body or
the empty object) returns 400 with `{error: 'Name is required'}` and leaves
the Users collection unchanged. -/
theorem c6_missing_name_rejected (users : List User) (data : Option UserReq)
    (h : data = none ∨ ∃ d, data = some d ∧ d.name = none) :
    create_user data users = some (.badRequest "Name is required", users) ∧
    (UserPostResp.badRequest "Name is required").status = 400 := by
  refine ⟨?_, rfl⟩
  rcases h with rfl | ⟨d, rfl, hn⟩
  · rfl
  · simp [create_user, hn]

/-- Witness for C6: the empty body `{}` against the seed `USERS`. -/
theorem c6_missing_name_rejected_witness :
    ((some ⟨none, none, none⟩ : Option UserReq) = none ∨
      ∃ d, (some ⟨none, none, none⟩ : Option UserReq) = some d ∧ d.name = none) ∧
    create_user (some ⟨none, none, none⟩) USERS =
      some (.badRequest "Name is required", USERS) ∧
    (UserPostResp.badRequest "Name is required").status = 400 :=
  ⟨Or.inr ⟨_, rfl, rfl⟩, c6_missing_name_rejected USERS _ (Or.inr ⟨_, rfl, rfl⟩)⟩

/-- C7: on a nonempty Users collection, `POST /users` with body
`{"name": "Test"}` returns 201 and a record with `id` one more than the
previous maximum id, `email` defaulted to the empty string and `role`
defaulted to `user`. -/
theorem c7_create_user_defaults (users : List User) (h : users ≠ []) :
    ∃ m, pyMax (users.map User.id) = some m ∧
      create_user (some ⟨some "Test", none, none⟩) users =
        some (.created ⟨m + 1, "Test", "", "user"⟩,
              users ++ [⟨m + 1, "Test", "", "user"⟩]) ∧
      (UserPostResp.created ⟨m + 1, "Test", "", "user"⟩).status = 201 := by
  have hne : users.map User.id ≠ [] := fun hmap => h (List.map_eq_nil_iff.mp hmap)
  obtain ⟨m, hm⟩ := pyMax_isSome_of_ne_nil hne
  exact ⟨m, hm, by simp [create_user, hm], rfl⟩

/-- Witness for C7: the seed `USERS` (maximum id 4, new id 5). -/
theorem c7_create_user_defaults_witness :
    USERS ≠ [] ∧
    ∃ m, pyMax (USERS.map User.id) = some m ∧
      create_user (some ⟨some "Test", none, none⟩) USERS =
        some (.created ⟨m + 1, "Test", "", "user"⟩,
              USERS ++ [⟨m + 1, "Test", "", "user"⟩]) ∧
      (UserPostResp.created ⟨m + 1, "Test", "", "user"⟩).status = 201 :=
  ⟨by decide, c7_create_user_defaults USERS (by decide)⟩

/-- C5: `POST /teams/<id>/messages` with a body containing `message` but a
team id absent from the Teams collection returns 404 with
`{error: 'Team not found'}` and leaves the Messages collection unchanged. -/
theorem c5_team_not_found (teams : List Team) (messages : List Message)
    (team_id : Nat) (d : MsgReq) (now : String) (msg : String)
    (hmsg : d.message = some msg) (habs : team_id ∉ teams.map Team.id) :
    send_team_message team_id (some d) now teams messages =
      some (.notFound "Team not found", messages) ∧
    (TeamMsgResp.notFound "Team not found").status = 404 := by
  refine ⟨?_, rfl⟩
  have hfind : teams.find? (fun t => t.id == team_id) = none := by
    apply find?_eq_none_of_forall
    intro t ht
    rw [beq_eq_false_iff_ne]
    intro hEq
    exact habs (hEq ▸ List.mem_map_of_mem Team.id ht)
  simp [send_team_message, hmsg, hfind]

/-- Witness for C5: `POST /teams/999/messages` against the seed data. -/
theorem c5_team_not_found_witness :
    (MsgReq.mk none (some "Hi")).message = some "Hi" ∧
    999 ∉ TEAMS.map Team.id ∧
    send_team_message 999 (some ⟨none, some "Hi"⟩) "2024-08-21T16:00:00" TEAMS MESSAGES =
      some (.notFound "Team not found", MESSAGES) ∧
    (TeamMsgResp.notFound "Team not found").status = 404 :=
  ⟨rfl, by decide,
   c5_team_not_found TEAMS MESSAGES 999 ⟨none, some "Hi"⟩ "2024-08-21T16:00:00" "Hi"
     rfl (by decide)⟩

/-- C10: in `POST /teams/<id>/messages` the missing-`message` validation runs
before the team-existence check, so a body without `message` yields 400 with
`{error: 'Message content is required'}` for every team id, present or not,
and the Messages collection is unchanged. -/
theorem c10_validation_before_existence (team_id : Nat) (data : Option MsgReq)
    (now : String) (teams : List Team) (messages : List Message)
    (h : data = none ∨ ∃ d, data = some d ∧ d.message = none) :
    send_team_message team_id data now teams messages =
      some (.badRequest "Message content is required", messages) ∧
    (TeamMsgResp.badRequest "Message content is required").status = 400 := by
  refine ⟨?_, rfl⟩
  rcases h with rfl | ⟨d, rfl, hm⟩
  · rfl
  · simp [send_team_message, hm]

/-- Witness for C10: a message-less body sent to the nonexistent team 999. -/
theorem c10_validation_before_existence_witness :
    999 ∉ TEAMS.map Team.id ∧
    send_team_message 999 (some ⟨some "john.doe@company.com", none⟩)
        "2024-08-21T16:00:00" TEAMS MESSAGES =
      some (.badRequest "Message content is required", MESSAGES) ∧
    (TeamMsgResp.badRequest "Message content is required").status = 400 :=
  ⟨by decide,
   c10_validation_before_existence 999 _ "2024-08-21T16:00:00" TEAMS MESSAGES
     (Or.inr ⟨_, rfl, rfl⟩)⟩

/-- C8: every get-by-id endpoint returns 404 with its collection's exact
message text when the id is absent, and the first record matching the id with
status 200 when present.  The five conjunct pairs cover `GET /users/<id>`,
`GET /events/<id>`, `GET /emails/<id>`, `GET /teams/<id>` and
`GET /files/<id>`. -/
theorem c8_get_by_id :
    (∀ (users : List User) (i : Nat), (∀ r ∈ users, r.id ≠ i) →
      get_user users i = .notFound "User not found" ∧
      (get_user users i).status = 404) ∧
    (∀ (users : List User) (i k : Nat) (hk : k < users.length),
      (users.get ⟨k, hk⟩).id = i →
      (∀ j (hj : j < k), (users.get ⟨j, Nat.lt_trans hj hk⟩).id ≠ i) →
      get_user users i = .ok (users.get ⟨k, hk⟩) ∧
      (get_user users i).status = 200) ∧
    (∀ (events : List Event) (i : Nat), (∀ r ∈ events, r.id ≠ i) →
      get_event events i = .notFound "Event not found" ∧
      (get_event events i).status = 404) ∧
    (∀ (events : List Event) (i k : Nat) (hk : k < events.length),
      (events.get ⟨k, hk⟩).id = i →
      (∀ j (hj : j < k), (events.get ⟨j, Nat.lt_trans hj hk⟩).id ≠ i) →
      get_event events i = .ok (events.get ⟨k, hk⟩) ∧
      (get_event events i).status = 200) ∧
    (∀ (emails : List Email) (i : Nat), (∀ r ∈ emails, r.id ≠ i) →
      get_email emails i = .notFound "Email not found" ∧
      (get_email emails i).status = 404) ∧
    (∀ (emails : List Email) (i k : Nat) (hk : k < emails.length),
      (emails.get ⟨k, hk⟩).id = i →
      (∀ j (hj : j < k), (emails.get ⟨j, Nat.lt_trans hj hk⟩).id ≠ i) →
      get_email emails i = .ok (emails.get ⟨k, hk⟩) ∧
      (get_email emails i).status = 200) ∧
    (∀ (teams : List Team) (i : Nat), (∀ r ∈ teams, r.id ≠ i) →
      get_team teams i = .notFound "Team not found" ∧
      (get_team teams i).status = 404) ∧
    (∀ (teams : List Team) (i k : Nat) (hk : k < teams.length),
      (teams.get ⟨k, hk⟩).id = i →
      (∀ j (hj : j < k), (teams.get ⟨j, Nat.lt_trans hj hk⟩).id ≠ i) →
      get_team teams i = .ok (teams.get ⟨k, hk⟩) ∧
      (get_team teams i).status = 200) ∧
    (∀ (files : List FileRec) (i : Nat), (∀ r ∈ files, r.id ≠ i) →
      get_file files i = .notFound "File not found" ∧
      (get_file files i).status = 404) ∧
    (∀ (files : List FileRec) (i k : Nat) (hk : k < files.length),
      (files.get ⟨k, hk⟩).id = i →
      (∀ j (hj : j < k), (files.get ⟨j, Nat.lt_trans hj hk⟩).id ≠ i) →
      get_file files i = .ok (files.get ⟨k, hk⟩) ∧
      (get_file files i).status = 200) := by
  refine ⟨?_, ?_, ?_, ?_, ?_, ?_, ?_, ?_, ?_, ?_⟩
  · intro l i h
    have hf := find?_eq_none_of_forall
      (fun a ha => beq_eq_false_iff_ne.mpr (h a ha) : ∀ a ∈ l, (a.id == i) = false)
    exact ⟨by simp [get_user, hf], by simp [get_user, hf, GetResp.status]⟩
  · intro l i k hk hp hfirst
    have hf := find?_eq_first (fun u => u.id == i) l k hk (by simp only [beq_iff_eq]; exact hp)
      (fun j hj => beq_eq_false_iff_ne.mpr (hfirst j hj))
    exact ⟨by simp [get_user, hf], by simp [get_user, hf, GetResp.status]⟩
  · intro l i h
    have hf := find?_eq_none_of_forall
      (fun a ha => beq_eq_false_iff_ne.mpr (h a ha) : ∀ a ∈ l, (a.id == i) = false)
    exact ⟨by simp [get_event, hf], by simp [get_event, hf, GetResp.status]⟩
  · intro l i k hk hp hfirst
    have hf := find?_eq_first (fun e => e.id == i) l k hk (by simp only [beq_iff_eq]; exact hp)
      (fun j hj => beq_eq_false_iff_ne.mpr (hfirst j hj))
    exact ⟨by simp [get_event, hf], by simp [get_event, hf, GetResp.status]⟩
  · intro l i h
    have hf := find?_eq_none_of_forall
      (fun a ha => beq_eq_false_iff_ne.mpr (h a ha) : ∀ a ∈ l, (a.id == i) = false)
    exact ⟨by simp [get_email, hf], by simp [get_email, hf, GetResp.status]⟩
  · intro l i k hk hp hfirst
    have hf := find?_eq_first (fun e => e.id == i) l k hk (by simp only [beq_iff_eq]; exact hp)
      (fun j hj => beq_eq_false_iff_ne.mpr (hfirst j hj))
    exact ⟨by simp [get_email, hf], by simp [get_email, hf, GetResp.status]⟩
  · intro l i h
    have hf := find?_eq_none_of_forall
      (fun a ha => beq_eq_false_iff_ne.mpr (h a ha) : ∀ a ∈ l, (a.id == i) = false)
    exact ⟨by simp [get_team, hf], by simp [get_team, hf, GetResp.status]⟩
  · intro l i k hk hp hfirst
    have hf := find?_eq_first (fun t => t.id == i) l k hk (by simp only [beq_iff_eq]; exact hp)
      (fun j hj => beq_eq_false_iff_ne.mpr (hfirst j hj))
    exact ⟨by simp [get_team, hf], by simp [get_team, hf, GetResp.status]⟩
  · intro l i h
    have hf := find?_eq_none_of_forall
      (fun a ha => beq_eq_false_iff_ne.mpr (h a ha) : ∀ a ∈ l, (a.id == i) = false)
    exact ⟨by simp [get_file, hf], by simp [get_file, hf, GetResp.status]⟩
  · intro l i k hk hp hfirst
    have hf := find?_eq_first (fun f => f.id == i) l k hk (by simp only [beq_iff_eq]; exact hp)
      (fun j hj => beq_eq_false_iff_ne.mpr (hfirst j hj))
    exact ⟨by simp [get_file, hf], by simp [get_file, hf, GetResp.status]⟩

/-- Witness for C8: id 99 is absent from the seed `USERS` (404), and id 1 is
found at index 0 of the seed `FILES` (200). -/
theorem c8_get_by_id_witness :
    (∀ r ∈ USERS, r.id ≠ 99) ∧
    get_user USERS 99 = .notFound "User not found" ∧
    (0 < FILES.length ∧ (FILES.get ⟨0, by decide⟩).id = 1) ∧
    get_file FILES 1 = .ok (FILES.get ⟨0, by decide⟩) :=
  ⟨by decide, (c8_get_by_id.1 USERS 99 (by decide)).1, ⟨by decide, by decide⟩,
   (c8_get_by_id.2.2.2.2.2.2.2.2.2 FILES 1 0 (by decide) (by decide)
      (fun j hj => absurd hj (Nat.not_lt_zero j))).1⟩

theorem send_email_created {d : Option EmailReq} {now : String} {es : List Email}
    {p : SendEmailPayload} {es' : List Email}
    (h : send_email d now es = some (.created p, es')) :
    es' = es ∧ ∃ m, pyMax (es.map Email.id) = some m ∧ p.email.id = m + 1 := by
  cases d with
  | none => simp [send_email] at h
  | some dd =>
    cases ht : dd.to_ with
    | none => simp [send_email, ht] at h
    | some t =>
      cases hs : dd.subject with
      | none => simp [send_email, ht, hs] at h
      | some sb =>
        cases hm : pyMax (es.map Email.id) with
        | none => simp [send_email, ht, hs, hm] at h
        | some m =>
          simp only [send_email, ht, hs, hm, Option.some.injEq, Prod.mk.injEq] at h
          obtain ⟨h1, h2⟩ := h
          injection h1 with hpl
          exact ⟨h2.symm, m, rfl, by rw [← hpl]⟩

/-- C1 (amended): every successful (201) create on the user, calendar and
teams services appends exactly the returned record — the new collection is
the old one with the returned record appended, so its length grows by one,
its last element is the returned record, and all previously stored records
are unchanged.  A successful (201) `POST /emails/send`, by contrast, leaves
the Emails collection unchanged. -/
theorem c1_create_appends_except_send_email :
    (∀ d users u us', create_user d users = some (.created u, us') →
       us' = users ++ [u] ∧ us'.length = users.length + 1 ∧
       us'.getLast? = some u) ∧
    (∀ d events e es', create_event d events = some (.created e, es') →
       es' = events ++ [e] ∧ es'.length = events.length + 1 ∧
       es'.getLast? = some e) ∧
    (∀ tid d now teams messages mg ms',
       send_team_message tid d now teams messages = some (.created mg, ms') →
       ms' = messages ++ [mg] ∧ ms'.length = messages.length + 1 ∧
       ms'.getLast? = some mg) ∧
    (∀ d now emails p es', send_email d now emails = some (.created p, es') →
       es' = emails) := by
  refine ⟨?_, ?_, ?_, fun d now emails p es' h => (send_email_created h).1⟩
  · intro d users u us' h
    rcases create_user_cases h with ⟨-, hbad⟩ | ⟨m, u', -, hcr, -, hs⟩
    · simp at hbad
    · injection hcr with hu
      subst hu
      exact ⟨hs, by simp [hs], by simp [hs]⟩
  · intro d events e es' h
    rcases create_event_cases h with ⟨-, hbad⟩ | ⟨m, e', -, hcr, -, hs⟩
    · simp at hbad
    · injection hcr with he
      subst he
      exact ⟨hs, by simp [hs], by simp [hs]⟩
  · intro tid d now teams messages mg ms' h
    rcases send_team_message_cases h with ⟨-, hbad⟩ | ⟨-, hbad⟩ | ⟨m, mg', -, hcr, -, -, hs⟩
    · simp at hbad
    · simp at hbad
    · injection hcr with hmg
      subst hmg
      exact ⟨hs, by simp [hs], by simp [hs]⟩

/-- Counterexample to C1 as stated: a successful (201) `POST /emails/send`
leaves the Emails collection unchanged — the post-state is the seed `EMAILS`
itself, of length 3, not 4. -/
theorem c1_counterexample_send_email_no_append :
    send_email (some c1req) c1now EMAILS =
      some (.created ⟨"Email sent successfully", c1sent⟩, EMAILS) ∧
    (EmailPostResp.created ⟨"Email sent successfully", c1sent⟩).status = 201 ∧
    EMAILS.length = 3 ∧ EMAILS.length ≠ EMAILS.length + 1 :=
  ⟨by decide, rfl, by decide, by omega⟩

/-- Witness for the amended C1: creating a user over the seed `USERS`. -/
theorem c1_create_appends_except_send_email_witness :
    create_user (some ⟨some "Test", none, none⟩) USERS =
      some (.created ⟨5, "Test", "", "user"⟩, USERS ++ [⟨5, "Test", "", "user"⟩]) ∧
    ((USERS ++ [⟨5, "Test", "", "user"⟩] : List User) =
        USERS ++ [⟨5, "Test", "", "user"⟩] ∧
      (USERS ++ [⟨5, "Test", "", "user"⟩] : List User).length = USERS.length + 1 ∧
      (USERS ++ [⟨5, "Test", "", "user"⟩] : List User).getLast? =
        some ⟨5, "Test", "", "user"⟩) :=
  ⟨by decide,
   c1_create_appends_except_send_email.1 (some ⟨some "Test", none, none⟩) USERS
     ⟨5, "Test", "", "user"⟩ (USERS ++ [⟨5, "Test", "", "user"⟩]) (by decide)⟩

/-- C4 (amended): the GET list endpoints are pure reads — repeating one with
no intervening POST leaves the state untouched and returns the identical
payload; repeated identical creates on the user, calendar and teams services
yield two distinct records with strictly increasing ids; a repeated
`POST /emails/send`, by contrast, returns the same id twice and appends
nothing. -/
theorem c4_get_pure_post_not_idempotent :
    (∀ σ : SysState,
       (get_users_tx σ).2 = σ ∧
       (get_users_tx ((get_users_tx σ).2)).1 = (get_users_tx σ).1 ∧
       (get_events_tx σ).2 = σ ∧
       (get_events_tx ((get_events_tx σ).2)).1 = (get_events_tx σ).1 ∧
       (get_emails_tx σ).2 = σ ∧
       (get_emails_tx ((get_emails_tx σ).2)).1 = (get_emails_tx σ).1 ∧
       (get_teams_tx σ).2 = σ ∧
       (get_teams_tx ((get_teams_tx σ).2)).1 = (get_teams_tx σ).1 ∧
       (get_files_tx σ).2 = σ ∧
       (get_files_tx ((get_files_tx σ).2)).1 = (get_files_tx σ).1) ∧
    (∀ d users u1 us1 u2 us2,
       create_user d users = some (.created u1, us1) →
       create_user d us1 = some (.created u2, us2) →
       u1.id < u2.id ∧ u1 ≠ u2) ∧
    (∀ d events e1 es1 e2 es2,
       create_event d events = some (.created e1, es1) →
       create_event d es1 = some (.created e2, es2) →
       e1.id < e2.id ∧ e1 ≠ e2) ∧
    (∀ tid d now teams messages m1 ms1 m2 ms2,
       send_team_message tid d now teams messages = some (.created m1, ms1) →
       send_team_message tid d now teams ms1 = some (.created m2, ms2) →
       m1.id < m2.id ∧ m1 ≠ m2) ∧
    (∀ d now emails p1 es1 p2 es2,
       send_email d now emails = some (.created p1, es1) →
       send_email d now es1 = some (.created p2, es2) →
       p2.email.id = p1.email.id ∧ es2 = emails) := by
  refine ⟨fun σ => ⟨rfl, rfl, rfl, rfl, rfl, rfl, rfl, rfl, rfl, rfl⟩, ?_, ?_, ?_, ?_⟩
  · intro d users u1 us1 u2 us2 h1 h2
    rcases create_user_cases h1 with ⟨-, hbad⟩ | ⟨m, u1', hm1, hcr1, hid1, hs1⟩
    · simp at hbad
    injection hcr1 with hu1
    subst hu1
    rcases create_user_cases h2 with ⟨-, hbad⟩ | ⟨m2, u2', hm2, hcr2, hid2, -⟩
    · simp at hbad
    injection hcr2 with hu2
    subst hu2
    have hmax : pyMax (us1.map User.id) = some (m + 1) := by
      subst hs1
      rw [List.map_append]
      simp only [List.map_cons, List.map_nil]
      rw [pyMax_append_singleton, hm1]
      simp [hid1, Nat.max_eq_right (Nat.le_succ m)]
    have hmeq := Option.some.inj (hmax.symm.trans hm2)
    refine ⟨by omega, ?_⟩
    intro hEq
    have := congrArg User.id hEq
    omega
  · intro d events e1 es1 e2 es2 h1 h2
    rcases create_event_cases h1 with ⟨-, hbad⟩ | ⟨m, e1', hm1, hcr1, hid1, hs1⟩
    · simp at hbad
    injection hcr1 with he1
    subst he1
    rcases create_event_cases h2 with ⟨-, hbad⟩ | ⟨m2, e2', hm2, hcr2, hid2, -⟩
    · simp at hbad
    injection hcr2 with he2
    subst he2
    have hmax : pyMax (es1.map Event.id) = some (m + 1) := by
      subst hs1
      rw [List.map_append]
      simp only [List.map_cons, List.map_nil]
      rw [pyMax_append_singleton, hm1]
      simp [hid1, Nat.max_eq_right (Nat.le_succ m)]
    have hmeq := Option.some.inj (hmax.symm.trans hm2)
    refine ⟨by omega, ?_⟩
    intro hEq
    have := congrArg Event.id hEq
    omega
  · intro tid d now teams messages m1 ms1 m2 ms2 h1 h2
    rcases send_team_message_cases h1 with ⟨-, hbad⟩ | ⟨-, hbad⟩ |
      ⟨m, m1', hm1, hcr1, hid1, -, hs1⟩
    · simp at hbad
    · simp at hbad
    injection hcr1 with hm1'
    subst hm1'
    rcases send_team_message_cases h2 with ⟨-, hbad⟩ | ⟨-, hbad⟩ |
      ⟨mm2, m2', hm2, hcr2, hid2, -, -⟩
    · simp at hbad
    · simp at hbad
    injection hcr2 with hm2'
    subst hm2'
    have hmax : pyMax (ms1.map Message.id) = some (m + 1) := by
      subst hs1
      rw [List.map_append]
      simp only [List.map_cons, List.map_nil]
      rw [pyMax_append_singleton, hm1]
      simp [hid1, Nat.max_eq_right (Nat.le_succ m)]
    have hmeq := Option.some.inj (hmax.symm.trans hm2)
    refine ⟨by omega, ?_⟩
    intro hEq
    have := congrArg Message.id hEq
    omega
  · intro d now emails p1 es1 p2 es2 h1 h2
    obtain ⟨hes1, m, hm1, hid1⟩ := send_email_created h1
    subst hes1
    obtain ⟨hes2, m2, hm2, hid2⟩ := send_email_created h2
    have hmeq := Option.some.inj (hm1.symm.trans hm2)
    exact ⟨by omega, hes2⟩

/-- Counterexample to C4 as stated: repeating the same valid
`POST /emails/send` does not produce strictly increasing ids — the first send
leaves the collection unchanged, so the second (run on the state the first
returned) computes the same id 4 again. -/
theorem c4_counterexample_send_email_same_id :
    send_email (some c4req) c4now EMAILS =
      some (.created ⟨"Email sent successfully", c4sent⟩, EMAILS) ∧
    (match send_email (some c4req) c4now EMAILS with
     | some (_, es1) => send_email (some c4req) c4now es1
     | none => none) =
      some (.created ⟨"Email sent successfully", c4sent⟩, EMAILS) ∧
    c4sent.id = 4 ∧ ¬ c4sent.id < c4sent.id :=
  ⟨by decide, by decide, by decide, by omega⟩

/-- Witness for the amended C4: a repeated identical `POST /users` over the
seed data creates ids 5 then 6. -/
theorem c4_get_pure_post_not_idempotent_witness :
    create_user (some ⟨some "Test", none, none⟩) USERS =
      some (.created ⟨5, "Test", "", "user"⟩, USERS ++ [⟨5, "Test", "", "user"⟩]) ∧
    create_user (some ⟨some "Test", none, none⟩) (USERS ++ [⟨5, "Test", "", "user"⟩]) =
      some (.created ⟨6, "Test", "", "user"⟩,
            (USERS ++ [⟨5, "Test", "", "user"⟩]) ++ [⟨6, "Test", "", "user"⟩]) ∧
    ((⟨5, "Test", "", "user"⟩ : User).id < (⟨6, "Test", "", "user"⟩ : User).id ∧
      (⟨5, "Test", "", "user"⟩ : User) ≠ (⟨6, "Test", "", "user"⟩ : User)) :=
  ⟨by decide, by decide,
   c4_get_pure_post_not_idempotent.2.1 (some ⟨some "Test", none, none⟩) USERS
     ⟨5, "Test", "", "user"⟩ (USERS ++ [⟨5, "Test", "", "user"⟩])
     ⟨6, "Test", "", "user"⟩ ((USERS ++ [⟨5, "Test", "", "user"⟩]) ++ [⟨6, "Test", "", "user"⟩])
     (by decide) (by decide)⟩

/-- C2: for collections whose event start timestamps carry their `Z` marker
only as the final character and parse successfully (true of everything the
system itself stores), `GET /events/today` returns exactly the events whose
start date — parsed after normalizing the trailing `Z` to `+00:00`, hence the
UTC date component — equals the current date, in original order, with `count`
the number of such events; and on the seed data, for any current date other
than 2024-08-22 and 2024-08-23, the response is `{events: [], count: 0}`. -/
theorem c2_today_events :
    (∀ (today : PyDate) (events : List Event),
       (∀ e ∈ events, ZAtEndOnly e.start ∧ (eventStartDate? e.start).isSome) →
       get_today_events today events =
         some ⟨events.filter (fun e => decide (specStartDate? e.start = some today)),
               today,
               (events.filter
                 (fun e => decide (specStartDate? e.start = some today))).length⟩) ∧
    (∀ today : PyDate, today ≠ ⟨2024, 8, 22⟩ → today ≠ ⟨2024, 8, 23⟩ →
       get_today_events today EVENTS = some ⟨[], today, 0⟩) := by
  have main : ∀ (today : PyDate) (events : List Event),
      (∀ e ∈ events, ZAtEndOnly e.start ∧ (eventStartDate? e.start).isSome) →
      get_today_events today events =
        some ⟨events.filter (fun e => decide (specStartDate? e.start = some today)),
              today,
              (events.filter
                (fun e => decide (specStartDate? e.start = some today))).length⟩ := by
    intro today events hwf
    unfold get_today_events
    rw [todayLoop_eq_filter today events hwf]
  refine ⟨main, ?_⟩
  intro today hne1 hne2
  rw [main today EVENTS (by decide)]
  have h22 : (⟨2024, 8, 22⟩ : PyDate) ≠ today := fun h => hne1 h.symm
  have h23 : (⟨2024, 8, 23⟩ : PyDate) ≠ today := fun h => hne2 h.symm
  have e1 : specStartDate? "2024-08-22T09:00:00Z" = some ⟨2024, 8, 22⟩ := by decide
  have e2 : specStartDate? "2024-08-22T14:00:00Z" = some ⟨2024, 8, 22⟩ := by decide
  have e3 : specStartDate? "2024-08-23T11:00:00Z" = some ⟨2024, 8, 23⟩ := by decide
  simp [EVENTS, List.filter, e1, e2, e3, h22, h23]

/-- Witness for C2: the seed `EVENTS` satisfy the wellformedness hypothesis,
and on 2025-01-01 the endpoint returns the empty payload. -/
theorem c2_today_events_witness :
    (∀ e ∈ EVENTS, ZAtEndOnly e.start ∧ (eventStartDate? e.start).isSome) ∧
    (⟨2025, 1, 1⟩ : PyDate) ≠ ⟨2024, 8, 22⟩ ∧
    (⟨2025, 1, 1⟩ : PyDate) ≠ ⟨2024, 8, 23⟩ ∧
    get_today_events ⟨2025, 1, 1⟩ EVENTS = some ⟨[], ⟨2025, 1, 1⟩, 0⟩ :=
  ⟨by decide, by decide, by decide, c2_today_events.2 ⟨2025, 1, 1⟩ (by decide) (by decide)⟩

/-- C3: in every state reachable from the seed data, record ids are unique
within each collection; every successful create/send computes the new id as
`max(existing ids) + 1`; and on an empty collection that computation is
undefined — the handler raises instead of returning a response. -/
theorem c3_unique_ids_max_assignment :
    (∀ σ, Reachable σ → IdsUnique σ) ∧
    (∀ σ, Reachable σ → ∀ d u us', create_user d σ.users = some (.created u, us') →
       ∃ m, pyMax (σ.users.map User.id) = some m ∧ u.id = m + 1) ∧
    (∀ σ, Reachable σ → ∀ d e es', create_event d σ.events = some (.created e, es') →
       ∃ m, pyMax (σ.events.map Event.id) = some m ∧ e.id = m + 1) ∧
    (∀ σ, Reachable σ → ∀ tid d now mg ms',
       send_team_message tid d now σ.teams σ.messages = some (.created mg, ms') →
       ∃ m, pyMax (σ.messages.map Message.id) = some m ∧ mg.id = m + 1) ∧
    (∀ σ, Reachable σ → ∀ d now p es',
       send_email d now σ.emails = some (.created p, es') →
       ∃ m, pyMax (σ.emails.map Email.id) = some m ∧ p.email.id = m + 1) ∧
    (∀ name emailv rolev,
       create_user (some ⟨some name, emailv, rolev⟩) ([] : List User) = none) := by
  refine ⟨fun σ h => reachable_idsUnique h, ?_, ?_, ?_, ?_, fun name emailv rolev => rfl⟩
  · intro σ _ d u us' h
    rcases create_user_cases h with ⟨-, hbad⟩ | ⟨m, u', hm, hcr, hid, -⟩
    · simp at hbad
    · injection hcr with hu
      subst hu
      exact ⟨m, hm, hid⟩
  · intro σ _ d e es' h
    rcases create_event_cases h with ⟨-, hbad⟩ | ⟨m, e', hm, hcr, hid, -⟩
    · simp at hbad
    · injection hcr with he
      subst he
      exact ⟨m, hm, hid⟩
  · intro σ _ tid d now mg ms' h
    rcases send_team_message_cases h with ⟨-, hbad⟩ | ⟨-, hbad⟩ | ⟨m, mg', hm, hcr, hid, -, -⟩
    · simp at hbad
    · simp at hbad
    · injection hcr with hmg
      subst hmg
      exact ⟨m, hm, hid⟩
  · intro σ _ d now p es' h
    exact (send_email_created h).2

/-- Witness for C3: the seed state is reachable, its ids are unique, and a
concrete create over it assigns id `4 + 1 = 5`. -/
theorem c3_unique_ids_max_assignment_witness :
    Reachable seedState ∧
    IdsUnique seedState ∧
    create_user (some ⟨some "Test", none, none⟩) seedState.users =
      some (.created ⟨5, "Test", "", "user"⟩, USERS ++ [⟨5, "Test", "", "user"⟩]) ∧
    (∃ m, pyMax (seedState.users.map User.id) = some m ∧
       (⟨5, "Test", "", "user"⟩ : User).id = m + 1) :=
  ⟨Reachable.seed, c3_unique_ids_max_assignment.1 seedState Reachable.seed, by decide,
   c3_unique_ids_max_assignment.2.1 seedState Reachable.seed
     (some ⟨some "Test", none, none⟩) ⟨5, "Test", "", "user"⟩
     (USERS ++ [⟨5, "Test", "", "user"⟩]) (by decide)⟩

/-- C9: `POST /events` checks only the presence of `title` and `start`, so a
create whose `start` is the unparseable string `not-a-date` succeeds with 201
and is appended; afterwards `GET /events/today` raises an unhandled parse
error (modelled as `none`) for every current date, instead of returning a
response. -/
theorem c9_unparseable_start_breaks_today :
    (∀ (events : List Event) (d : EventReq) (t s : String),
       d.title = some t → d.start = some s → events ≠ [] →
       ∃ e es', create_event (some d) events = some (.created e, es') ∧
         e.start = s ∧ es' = events ++ [e]) ∧
    create_event (some ⟨some "Planning", some "not-a-date", none, none⟩) EVENTS =
      some (.created badStartEvent, EVENTS ++ [badStartEvent]) ∧
    (EventPostResp.created badStartEvent).status = 201 ∧
    (∀ today : PyDate, get_today_events today (EVENTS ++ [badStartEvent]) = none) := by
  refine ⟨?_, by decide, rfl, fun today => rfl⟩
  intro events d t s ht hs hne
  have hmapne : events.map Event.id ≠ [] := fun hmap => hne (List.map_eq_nil_iff.mp hmap)
  obtain ⟨m, hm⟩ := pyMax_isSome_of_ne_nil hmapne
  refine ⟨⟨m + 1, t, s, d.end_.getD s, d.attendees.getD []⟩, _, ?_, rfl, rfl⟩
  simp [create_event, ht, hs, hm]

/-- Witness for C9: the general acceptance conjunct applied to the concrete
unparseable-start request over the seed `EVENTS`. -/
theorem c9_unparseable_start_breaks_today_witness :
    (EventReq.mk (some "Planning") (some "not-a-date") none none).title = some "Planning" ∧
    (EventReq.mk (some "Planning") (some "not-a-date") none none).start = some "not-a-date" ∧
    EVENTS ≠ [] ∧
    (∃ e es', create_event (some ⟨some "Planning", some "not-a-date", none, none⟩) EVENTS =
        some (.created e, es') ∧ e.start = "not-a-date" ∧ es' = EVENTS ++ [e]) ∧
    get_today_events ⟨2024, 8, 22⟩ (EVENTS ++ [badStartEvent]) = none :=
  ⟨rfl, rfl, by decide,
   c9_unparseable_start_breaks_today.1 EVENTS ⟨some "Planning", some "not-a-date", none, none⟩
     "Planning" "not-a-date" rfl rfl (by decide),
   c9_unparseable_start_breaks_today.2.2.2 ⟨2024, 8, 22⟩⟩

/-- Counterexample to C2 as stated: it claims a filtered response for every
state of the Events collection, but on a state holding an event with an
unparseable `start` (reachable via `POST /events`), `GET /events/today`
raises (returns no response) instead of the predicted payload, whose `count`
would have been 2. -/
theorem c2_counterexample_unparseable_state :
    get_today_events ⟨2024, 8, 22⟩ c2BadState = none ∧
    (c2BadState.filter
      (fun e => decide (specStartDate? e.start = some ⟨2024, 8, 22⟩))).length = 2 ∧
    get_today_events ⟨2024, 8, 22⟩ c2BadState ≠
      some ⟨c2BadState.filter
              (fun e => decide (specStartDate? e.start = some ⟨2024, 8, 22⟩)),
            ⟨2024, 8, 22⟩,
            (c2BadState.filter
              (fun e => decide (specStartDate? e.start = some ⟨2024, 8, 22⟩))).length⟩ :=
  ⟨rfl, by decide, by decide⟩
